import Mathlib

/-!
Verification of the `misosoup` mass-spectrometry helper library.

The development shallowly embeds the two modules the specification's
testable properties talk about:

* `misosoup/mol.py` — isotope-distribution simulation (`hrms`, `lrms`,
  `mw_range`).  Python floats are modelled as exact rationals (`ℚ`);
  `np.round(x, p)` is modelled by `roundTo p` (round half to even, as
  numpy does); the `np.int32` cast is modelled by `pyTrunc` (truncation
  toward zero).  The external formula parser / isotope physics engine is
  a black box: its answer enters the model as an
  `Option (List (ℚ × ℚ))` of (mass, probability) pairs, `none` meaning
  the parse/enumeration failed (the code then returns `None`).
* `misosoup/sql.py` — query building (`MisoQuery`, `get_ms1_features`,
  `fetch_template`, `sanitize_list`, `validate_range`).  Python
  exceptions are modelled with `Except`; an `error` value of a fault
  constructor stands for an exception escaping the modelled function.
-/

/- `Batteries` marks the rational arithmetic operations `@[irreducible]`,
which blocks `decide` on concrete rational computations; re-expose them. -/
attribute [local semireducible] Rat.mul Rat.add Rat.sub Rat.inv

instance {ε α : Type} [DecidableEq ε] [DecidableEq α] : DecidableEq (Except ε α) :=
  fun a b =>
    match a, b with
    | .ok x, .ok y =>
        if h : x = y then isTrue (by rw [h])
        else isFalse (fun he => by cases he; exact h rfl)
    | .error x, .error y =>
        if h : x = y then isTrue (by rw [h])
        else isFalse (fun he => by cases he; exact h rfl)
    | .ok _, .error _ => isFalse (fun he => by cases he)
    | .error _, .ok _ => isFalse (fun he => by cases he)

namespace Miso

/-- `M.E` in `mol.py`: the electron mass constant `0.00054858`. -/
def ME : ℚ := mkRat 54858 100000000

/-- Round half to even of a rational to an integer, the tie rule used by
`np.round`.  Uses the executable `Rat.floor`. -/
def hround (t : ℚ) : ℤ :=
  if 1/2 < t - Rat.floor t then Rat.floor t + 1
  else if t - Rat.floor t < 1/2 then Rat.floor t
  else if Rat.floor t % 2 = 0 then Rat.floor t else Rat.floor t + 1

/-- `np.round(x, p)`: round to `p` decimal places, half to even. -/
def roundTo (p : ℕ) (x : ℚ) : ℚ := (hround (x * 10 ^ p) : ℚ) / 10 ^ p

/-- The `np.int32(·)` cast applied to a float: truncation toward zero. -/
def pyTrunc (q : ℚ) : ℤ := if 0 ≤ q then Rat.floor q else Rat.ceil q

/-- Charge correction of a raw mass, exactly as `hrms`/`lrms` do it:
for `charge ≠ 0` subtract `M.E * charge` and divide by `abs(charge)`;
for `charge = 0` leave the mass alone. -/
def corr (c : ℤ) (m : ℚ) : ℚ :=
  if c = 0 then m else (m - ME * c) / (Int.natAbs c : ℚ)

/-- Comparison by raw mass, the key of `df.sort_values(["tmz"])` before
the charge correction is applied. -/
def leMass (a b : ℚ × ℚ) : Prop := a.1 ≤ b.1

instance : DecidableRel leMass :=
  fun a b => inferInstanceAs (Decidable (a.1 ≤ b.1))

instance : IsTotal (ℚ × ℚ) leMass := ⟨fun a b => le_total a.1 b.1⟩

instance : IsTrans (ℚ × ℚ) leMass := ⟨fun _ _ _ h h' => le_trans h h'⟩

/-- The row list produced by `hrms` from the physics engine's
(mass, probability) enumeration: sort by raw mass, charge-correct and
round the `tmz` column, rescale the `tri` column with the `np.int32`
cast of `probability * 1e6`. -/
def hrmsRows (s : List (ℚ × ℚ)) (c : ℤ) (prec : ℕ) : List (ℚ × ℤ) :=
  (List.insertionSort leMass s).map
    fun p => (roundTo prec (corr c p.1), pyTrunc (p.2 * 1000000))

/-- `mol.hrms`: `none` in, `none` out (the `except` branches return
`None`); otherwise the row table. -/
def hrms (parsed : Option (List (ℚ × ℚ))) (c : ℤ) (prec : ℕ) :
    Option (List (ℚ × ℤ)) :=
  parsed.map (fun s => hrmsRows s c prec)

/-- The row list produced by `lrms` from the per-mass-number spectrum:
same per-row charge correction, rounding and intensity rescaling as
`hrms`, but no sort (the table keeps the engine's keying order). -/
def lrmsRows (s : List (ℚ × ℚ)) (c : ℤ) (prec : ℕ) : List (ℚ × ℤ) :=
  s.map fun p => (roundTo prec (corr c p.1), pyTrunc (p.2 * 1000000))

/-- `mol.lrms`. -/
def lrms (parsed : Option (List (ℚ × ℚ))) (c : ℤ) (prec : ℕ) :
    Option (List (ℚ × ℤ)) :=
  parsed.map (fun s => lrmsRows s c prec)

/-- Python faults that escape a `misosoup` function (uncaught
exceptions), as opposed to its explicit `None` result. -/
inductive PyFault
  | attributeError
  | indexError
  | unboundLocal
  deriving DecidableEq, Repr

/-- `mol.mw_range`: `hrms(mf, charge=charge).iloc[0, 0]` with no guard.
If `hrms` returned `None` the attribute access raises
`AttributeError`; if the table is empty, `.iloc[0, 0]` raises
`IndexError`.  Otherwise the tolerance window around the first row's
`tmz` is rounded to 6 decimal places.  An `.ok none` value — the
explicit no-result signal used elsewhere in the module — is never
produced by the code. -/
def mw_range (parsed : Option (List (ℚ × ℚ))) (c : ℤ) (tol : ℚ) :
    Except PyFault (Option (ℚ × ℚ)) :=
  match hrms parsed c 6 with
  | none => .error .attributeError
  | some [] => .error .indexError
  | some (r :: _) =>
      .ok (some (roundTo 6 (r.1 * (1 - tol * (1/1000000))),
                 roundTo 6 (r.1 * (1 + tol * (1/1000000)))))

example : hrmsRows [(18, 1)] 1 6 = [(mkRat 17999451 1000000, 1000000)] := by decide

example : hrmsRows [(2, 1), (1, 1)] 0 6 = [(1, 1000000), (2, 1000000)] := by decide

example : mw_range none 1 10 = .error .attributeError := by decide

example : lrmsRows [(18, mkRat 17 10000000)] 1 6 =
    [(mkRat 17999451 1000000, 1)] := by decide

/-! ### Embedding of `misosoup/sql.py` -/

/-- The runtime type of the `msrun_ids`-style argument handed to
`sanitize_list`: a plain string, one of the five accepted collection
types (modelled with their element lists), or a value of any other
type. -/
inductive IdsArg
  | str (s : String)
  | list (xs : List String)
  | tuple (xs : List String)
  | set (xs : List String)
  | ndarray (xs : List String)
  | series (xs : List String)
  | other
  deriving DecidableEq, Repr

/-- Python exceptions raised inside the query-building helpers. -/
inductive SqlError
  | typeErrorBadIdsType
  | typeErrorNotSubscriptable
  | valueErrorInvalidRange
  deriving DecidableEq, Repr

/-- The `_ids` value `sanitize_list` hands to template substitution:
either the literal string `('x')` built by the f-string, or the Python
tuple built by `tuple(list_like_arg)`. -/
inductive SqlIds
  | pystr (s : String)
  | pytuple (xs : List String)
  deriving DecidableEq, Repr

/-- `sql.sanitize_list`.  A string is wrapped as `('s')`.  An accepted
collection of length 1 is wrapped the same way via `list_like_arg[0]` —
except that a Python `set` is not subscriptable, so that subscript
raises `TypeError` (modelled `typeErrorNotSubscriptable`).  Any longer
(or empty) collection becomes `tuple(list_like_arg)`.  Any other type
raises the explicit `TypeError` (modelled `typeErrorBadIdsType`). -/
def sanitize_list : IdsArg → Except SqlError SqlIds
  | .str s => .ok (.pystr ("('" ++ s ++ "')"))
  | .list xs =>
      match xs with
      | [x] => .ok (.pystr ("('" ++ x ++ "')"))
      | _ => .ok (.pytuple xs)
  | .tuple xs =>
      match xs with
      | [x] => .ok (.pystr ("('" ++ x ++ "')"))
      | _ => .ok (.pytuple xs)
  | .set xs =>
      if xs.length = 1 then .error .typeErrorNotSubscriptable
      else .ok (.pytuple xs)
  | .ndarray xs =>
      match xs with
      | [x] => .ok (.pystr ("('" ++ x ++ "')"))
      | _ => .ok (.pytuple xs)
  | .series xs =>
      match xs with
      | [x] => .ok (.pystr ("('" ++ x ++ "')"))
      | _ => .ok (.pytuple xs)
  | .other => .error .typeErrorBadIdsType

/-- `sql.validate_range`.  `None` means "no filter" (`False`); a
two-element range with `low ≤ high` validates (`True`); anything else
raises `ValueError`. -/
def validate_range : Option (List ℚ) → Except SqlError Bool
  | none => .ok false
  | some l =>
      match l with
      | [a, b] => if a ≤ b then .ok true else .error .valueErrorInvalidRange
      | _ => .error .valueErrorInvalidRange

/-- Decimal-free rendering of the rational bound into the clause text
(the counterpart of Python's f-string formatting of the number). -/
def qstr (q : ℚ) : String :=
  if q.den = 1 then toString q.num
  else toString q.num ++ "/" ++ toString q.den

/-- The `feature_id` filter clause of `get_ms1_features` (with the
`"\n\t" +` prefix used when it is appended), empty when the parameter
is absent. -/
def featureClause : Option ℤ → String
  | some i => "\n\tAND feature_id = " ++ toString i
  | none => ""

/-- One `AND field BETWEEN low AND high` filter clause of
`get_ms1_features`, guarded by `validate_range` exactly as in the
source: an invalid range propagates the `ValueError`, an absent range
contributes nothing. -/
def rangeClause (field : String) (r : Option (List ℚ)) :
    Except SqlError String := do
  let ok ← validate_range r
  if ok then
    match r with
    | some (a :: b :: _) =>
        pure ("\n\tAND " ++ field ++ " BETWEEN " ++ qstr a ++ " AND " ++ qstr b)
    | _ => pure ""
  else pure ""

/-- The `_filter_clauses` accumulator of `get_ms1_features`: the
`feature_id` clause, then the `mz` clause, then the `rt` clause, each
only if its parameter was supplied. -/
def ms1FilterClauses (fid : Option ℤ) (mz rt : Option (List ℚ)) :
    Except SqlError String := do
  let f2 ← rangeClause "mz" mz
  let f3 ← rangeClause "rt" rt
  pure (featureClause fid ++ f2 ++ f3)

/-- `sql.get_ms1_features`, up to the (externally stored) template
text: the validated substitution values — the sanitized identifier set
and the accumulated filter clauses — that `.format` splices verbatim
into the template. -/
def get_ms1_features (ids : IdsArg) (fid : Option ℤ)
    (mz rt : Option (List ℚ)) : Except SqlError (SqlIds × String) := do
  let clauses ← ms1FilterClauses fid mz rt
  let sids ← sanitize_list ids
  pure (sids, clauses)

/-- `sql.MisoQuery`: a query string (the `lines` attribute is derived
from it, see `MisoQuery.lines`). -/
structure MisoQuery where
  text : String
  deriving DecidableEq, Repr

/-- Split a character list at newline characters, the semantics of
Python's `str.split("\n")` (an empty string yields one empty group). -/
def splitNl : List Char → List (List Char)
  | [] => [[]]
  | c :: rest =>
      match splitNl rest with
      | [] => [[c]]
      | g :: gs => if c = '\n' then [] :: g :: gs else (c :: g) :: gs

/-- Join strings with newlines, the semantics of `"\n".join(...)`. -/
def joinNl : List String → String
  | [] => ""
  | [x] => x
  | x :: xs => x ++ "\n" ++ joinNl xs

/-- `query.split("\n")` stored by `MisoQuery.__init__`. -/
def MisoQuery.lines (q : MisoQuery) : List String :=
  (splitNl q.text.data).map (fun cs => String.mk cs)

/-- `MisoQuery.run`'s query-text handling: the pair of (the query value
actually executed, the caller's receiver after the call).  A non-empty
`footer` rebinds the *local* `self` to a fresh `MisoQuery` with the
footer appended on a new line; the caller's object is untouched. -/
def MisoQuery.runExec (q : MisoQuery) (footer : String) :
    MisoQuery × MisoQuery :=
  (if footer ≠ "" then MisoQuery.mk (q.text ++ "\n" ++ footer) else q, q)

/-- The `MisoQuery.count` property: wraps the receiver's lines into a
`result` CTE and counts its rows, producing a fresh `MisoQuery`. -/
def MisoQuery.countQuery (q : MisoQuery) : MisoQuery :=
  MisoQuery.mk
    (joinNl
      ["WITH result AS (",
       joinNl (q.lines.map (fun l => "\t" ++ l)),
       ") SELECT COUNT(1) AS row_count FROM result"])

/-- `sql.fetch_template`.  `resource` models the answer of
`pkgutil.get_data` for a `.sql` path: `some data` when the packaged
file exists, `none` when it is missing and `get_data` raises
`FileNotFoundError`.  In the latter case the `except` branch only
prints the error, after which `return _template` reads an unassigned
local and raises `UnboundLocalError`.  A non-`.sql` string is itself
the template. -/
def fetch_template (template : String) (resource : Option String) :
    Except PyFault String :=
  if ".sql".data.isSuffixOf template.data then
    match resource with
    | some data => .ok data
    | none => .error .unboundLocal
  else .ok template

example : sanitize_list (.str "RUN1") = .ok (.pystr "('RUN1')") := by decide

example : sanitize_list (.set ["RUN1"]) = .error .typeErrorNotSubscriptable := by decide

example : ms1FilterClauses none (some [100, 200]) none =
    .ok "\n\tAND mz BETWEEN 100 AND 200" := by decide

example : fetch_template "duckdb/get_ms1_features.sql" none =
    .error .unboundLocal := by decide

example : (MisoQuery.mk "SELECT 1\nFROM t").countQuery =
    MisoQuery.mk
      "WITH result AS (\n\tSELECT 1\n\tFROM t\n) SELECT COUNT(1) AS row_count FROM result" := by
  decide

/-! ### Arithmetic lemmas about the rounding model -/

theorem ratFloor_eq (q : ℚ) : (Rat.floor q : ℤ) = ⌊q⌋ := by
  rw [Rat.floor_def', ← Rat.floor_def]

theorem floor_le_hround (t : ℚ) : ⌊t⌋ ≤ hround t := by
  unfold hround
  rw [ratFloor_eq]
  split_ifs <;> omega

theorem hround_le_floor_add_one (t : ℚ) : hround t ≤ ⌊t⌋ + 1 := by
  unfold hround
  rw [ratFloor_eq]
  split_ifs <;> omega

theorem hround_ge (t : ℚ) : t - 1/2 ≤ (hround t : ℚ) := by
  have h1 : (⌊t⌋ : ℚ) ≤ t := Int.floor_le t
  have h2 : t < ⌊t⌋ + 1 := Int.lt_floor_add_one t
  unfold hround
  rw [ratFloor_eq]
  split_ifs with ha hb hc <;> push_cast <;> linarith

theorem hround_le (t : ℚ) : (hround t : ℚ) ≤ t + 1/2 := by
  have h1 : (⌊t⌋ : ℚ) ≤ t := Int.floor_le t
  have h2 : t < ⌊t⌋ + 1 := Int.lt_floor_add_one t
  unfold hround
  rw [ratFloor_eq]
  split_ifs with ha hb hc
  · push_cast; linarith
  · linarith
  · linarith
  · have h3 : t - ⌊t⌋ = 1/2 := le_antisymm (not_lt.mp ha) (not_lt.mp hb)
    push_cast
    linarith

theorem hround_mono {t u : ℚ} (h : t ≤ u) : hround t ≤ hround u := by
  rcases lt_or_le ⌊t⌋ ⌊u⌋ with hf | hf
  · calc hround t ≤ ⌊t⌋ + 1 := hround_le_floor_add_one t
      _ ≤ ⌊u⌋ := by omega
      _ ≤ hround u := floor_le_hround u
  · have hf' : ⌊t⌋ = ⌊u⌋ := le_antisymm (Int.floor_mono h) hf
    have hfr : t - (⌊t⌋ : ℚ) ≤ u - (⌊u⌋ : ℚ) := by
      rw [← hf']
      linarith
    unfold hround
    rw [ratFloor_eq, ratFloor_eq, hf']
    split_ifs with h1 h2 h3 h4 h5 h6 h7 h8 h9 <;> try omega
    all_goals (exfalso; first
      | (exact absurd (lt_of_lt_of_le h1 hfr) h2)
      | linarith)


theorem roundTo_ge (p : ℕ) (x : ℚ) : x - 1 / (2 * 10 ^ p) ≤ roundTo p x := by
  have hp : (0 : ℚ) < 10 ^ p := by positivity
  have hb := hround_ge (x * 10 ^ p)
  rw [roundTo, le_div_iff₀ hp]
  have he : (x - 1 / (2 * 10 ^ p)) * 10 ^ p = x * 10 ^ p - 1 / 2 := by
    field_simp
    ring
  rw [he]
  exact hb

theorem roundTo_le (p : ℕ) (x : ℚ) : roundTo p x ≤ x + 1 / (2 * 10 ^ p) := by
  have hp : (0 : ℚ) < 10 ^ p := by positivity
  have hb := hround_le (x * 10 ^ p)
  rw [roundTo, div_le_iff₀ hp]
  have he : (x + 1 / (2 * 10 ^ p)) * 10 ^ p = x * 10 ^ p + 1 / 2 := by
    field_simp
    ring
  rw [he]
  exact hb

theorem roundTo_mono (p : ℕ) {x y : ℚ} (h : x ≤ y) : roundTo p x ≤ roundTo p y := by
  have hp : (0 : ℚ) < 10 ^ p := by positivity
  have h1 : x * 10 ^ p ≤ y * 10 ^ p := mul_le_mul_of_nonneg_right h hp.le
  have h2 : (hround (x * 10 ^ p) : ℚ) ≤ (hround (y * 10 ^ p) : ℚ) := by
    exact_mod_cast hround_mono h1
  exact (div_le_div_iff_of_pos_right hp).mpr h2

theorem corr_mono (c : ℤ) {m m' : ℚ} (h : m ≤ m') : corr c m ≤ corr c m' := by
  unfold corr
  split_ifs with hc
  · exact h
  · have hpos : (0 : ℚ) < (Int.natAbs c : ℚ) := by
      exact_mod_cast Nat.pos_of_ne_zero (Int.natAbs_ne_zero.mpr hc)
    exact (div_le_div_iff_of_pos_right hpos).mpr (by linarith)

theorem hrmsRows_sorted (s : List (ℚ × ℚ)) (c : ℤ) (prec : ℕ) :
    (hrmsRows s c prec).Pairwise (fun a b => a.1 ≤ b.1) := by
  have hs : List.Sorted leMass (List.insertionSort leMass s) :=
    List.sorted_insertionSort leMass s
  exact List.Pairwise.map _ (fun a b hab => roundTo_mono prec (corr_mono c hab)) hs

theorem mem_hrmsRows {s : List (ℚ × ℚ)} {c : ℤ} {prec : ℕ} {r : ℚ × ℤ} :
    r ∈ hrmsRows s c prec ↔
      ∃ p ∈ s, r = (roundTo prec (corr c p.1), pyTrunc (p.2 * 1000000)) := by
  simp [hrmsRows, List.mem_map, eq_comm]

theorem mem_lrmsRows {s : List (ℚ × ℚ)} {c : ℤ} {prec : ℕ} {r : ℚ × ℤ} :
    r ∈ lrmsRows s c prec ↔
      ∃ p ∈ s, r = (roundTo prec (corr c p.1), pyTrunc (p.2 * 1000000)) := by
  simp [lrmsRows, List.mem_map, eq_comm]

theorem pyTrunc_nonneg {q : ℚ} (h : 0 ≤ q) : 0 ≤ pyTrunc q := by
  unfold pyTrunc
  rw [if_pos h, ratFloor_eq]
  exact Int.floor_nonneg.mpr h

theorem corr_eq_abs (c : ℤ) (m : ℚ) :
    corr c m = if c = 0 then m else (m - ME * c) / |(c : ℚ)| := by
  unfold corr
  split_ifs with h
  · rfl
  · rw [Int.cast_natAbs, Int.cast_abs]

/-! ### Claims -/

/-- **C1**: for every spectrum the parser/physics engine accepts and every
charge `c`, each row of both the fine (`hrms`) and coarse (`lrms`) tables
carries as its `tmz` the charge-corrected value of one of the raw masses:
`(raw_mass − electron_mass·c) / |c|` rounded to the configured precision
when `c ≠ 0`, and the raw mass rounded when `c = 0`, with
`electron_mass = 0.00054858` (`ME`). -/
theorem C1_charge_correction (s : List (ℚ × ℚ)) (c : ℤ) (prec : ℕ)
    (r : ℚ × ℤ) (hr : r ∈ hrmsRows s c prec ∨ r ∈ lrmsRows s c prec) :
    ∃ p ∈ s, r.1 = roundTo prec (if c = 0 then p.1 else (p.1 - ME * c) / |(c : ℚ)|) := by
  have key : ∀ p : ℚ × ℚ,
      roundTo prec (corr c p.1) =
        roundTo prec (if c = 0 then p.1 else (p.1 - ME * c) / |(c : ℚ)|) := by
    intro p
    rw [corr_eq_abs]
  rcases hr with h | h
  · obtain ⟨p, hp, he⟩ := mem_hrmsRows.mp h
    exact ⟨p, hp, by rw [he, ← key p]⟩
  · obtain ⟨p, hp, he⟩ := mem_lrmsRows.mp h
    exact ⟨p, hp, by rw [he, ← key p]⟩

/-- Witness for C1 at the water-like input `[(18, 1)]`, charge `+1`,
precision 6: the single row's `tmz` is `(18 − ME)/1` rounded, namely
`17.999451`. -/
theorem C1_witness :
    ∃ p ∈ [((18 : ℚ), (1 : ℚ))],
      ((mkRat 17999451 1000000 : ℚ), (1000000 : ℤ)).1 =
        roundTo 6 (if (1 : ℤ) = 0 then p.1 else (p.1 - ME * ((1 : ℤ) : ℚ)) / |((1 : ℤ) : ℚ)|) :=
  C1_charge_correction [(18, 1)] 1 6 (mkRat 17999451 1000000, 1000000)
    (Or.inl (by decide))

/-- **C2 counterexample**: the code rescales intensity with an `np.int32`
cast, which truncates.  At probability `17 / 10^7` the row's
`relative_intensity` is `1` in both tables while round-to-nearest of
`probability × 1e6 = 1.7` is `2`, so "`tri = round(probability × 1e6)`,
rounding to nearest, not truncation" is false. -/
theorem C2_cex :
    (hrmsRows [((18 : ℚ), mkRat 17 10000000)] 1 6).map Prod.snd = [1] ∧
    (lrmsRows [((18 : ℚ), mkRat 17 10000000)] 1 6).map Prod.snd = [1] ∧
    round ((mkRat 17 10000000 : ℚ) * 1000000) = (2 : ℤ) ∧ (1 : ℤ) ≠ 2 := by
  refine ⟨by decide, by decide, ?_, by decide⟩
  rw [round_eq]
  decide

/-- **C2 amended**: each row of the fine and coarse tables carries as its
`relative_intensity` the value `probability × 1e6` truncated toward zero
(`np.int32` cast), where the probability is the pre-charge-correction one;
the result is non-negative whenever the engine's probability is. -/
theorem C2_amended (s : List (ℚ × ℚ)) (c : ℤ) (prec : ℕ) (r : ℚ × ℤ)
    (hr : r ∈ hrmsRows s c prec ∨ r ∈ lrmsRows s c prec) :
    ∃ p ∈ s, r.2 = pyTrunc (p.2 * 1000000) ∧ (0 ≤ p.2 → 0 ≤ r.2) := by
  rcases hr with h | h
  · obtain ⟨p, hp, he⟩ := mem_hrmsRows.mp h
    refine ⟨p, hp, by rw [he], fun hpr => ?_⟩
    rw [he]
    exact pyTrunc_nonneg (by positivity)
  · obtain ⟨p, hp, he⟩ := mem_lrmsRows.mp h
    refine ⟨p, hp, by rw [he], fun hpr => ?_⟩
    rw [he]
    exact pyTrunc_nonneg (by positivity)

/-- Witness for the amended C2 at `[(18, 17/10^7)]`, charge `+1`:
`tri = trunc(1.7) = 1 ≥ 0`. -/
theorem C2_amended_witness :
    ∃ p ∈ [((18 : ℚ), mkRat 17 10000000)],
      ((mkRat 17999451 1000000 : ℚ), (1 : ℤ)).2 = pyTrunc (p.2 * 1000000) ∧
      (0 ≤ p.2 → 0 ≤ ((mkRat 17999451 1000000 : ℚ), (1 : ℤ)).2) :=
  C2_amended [(18, mkRat 17 10000000)] 1 6 (mkRat 17999451 1000000, 1)
    (Or.inl (by decide))

/-- **C3** (code evaluated at the failing input): a one-element `set` is
accepted by the `isinstance` check but the subsequent `[0]` subscript
raises `TypeError` (sets are not subscriptable), so the one-element set is
NOT normalized to the same query text as a single string — unlike the
other four collection types, which are.  Collections of length above 1
become a tuple, and an unsupported type raises the explicit `TypeError`. -/
theorem C3_set_not_subscriptable :
    sanitize_list (.set ["RUN1"]) = .error .typeErrorNotSubscriptable ∧
    sanitize_list (.str "RUN1") = .ok (.pystr "('RUN1')") ∧
    sanitize_list (.list ["RUN1"]) = sanitize_list (.str "RUN1") ∧
    sanitize_list (.tuple ["RUN1"]) = sanitize_list (.str "RUN1") ∧
    sanitize_list (.ndarray ["RUN1"]) = sanitize_list (.str "RUN1") ∧
    sanitize_list (.series ["RUN1"]) = sanitize_list (.str "RUN1") ∧
    sanitize_list (.list ["A", "B"]) = .ok (.pytuple ["A", "B"]) ∧
    sanitize_list .other = .error .typeErrorBadIdsType := by
  decide

/-- **C4** (code evaluated at the failing inputs): `mw_range` dereferences
`hrms(...).iloc[0, 0]` with no guard, so when the fine spectrum is
unavailable (`hrms` returned `None`) it raises `AttributeError`, when the
fine spectrum is empty it raises `IndexError`, and it never returns the
explicit no-result signal (`None`) the propagation policy promises. -/
theorem C4_mw_range_uncaught_fault (c : ℤ) (tol : ℚ) :
    mw_range none c tol = .error .attributeError ∧
    mw_range (some []) c tol = .error .indexError ∧
    ∀ s : List (ℚ × ℚ), mw_range (some s) c tol ≠ .ok none := by
  refine ⟨rfl, rfl, fun s => ?_⟩
  unfold mw_range
  have hh : hrms (some s) c 6 = some (hrmsRows s c 6) := rfl
  rw [hh]
  cases hrmsRows s c 6 with
  | nil => simp
  | cons r rest => simp

/-- **C5**: numeric range filters of the query builder: `None` means "no
filter" (no clause, no error); a two-element range with `low ≤ high`
validates and its generated clause embeds both bounds (they occur
literally in the clause text); an inverted or wrong-arity range raises
`ValueError` (the spec's `InvalidParameter`) instead of being ignored. -/
theorem C5_range_validation :
    validate_range none = .ok false ∧
    rangeClause "mz" none = .ok "" ∧
    (∀ a b : ℚ, a ≤ b →
      validate_range (some [a, b]) = .ok true ∧
      rangeClause "mz" (some [a, b]) =
        .ok ("\n\tAND mz BETWEEN " ++ qstr a ++ " AND " ++ qstr b) ∧
      (qstr a).data <:+: ("\n\tAND mz BETWEEN " ++ qstr a ++ " AND " ++ qstr b).data ∧
      (qstr b).data <:+: ("\n\tAND mz BETWEEN " ++ qstr a ++ " AND " ++ qstr b).data) ∧
    (∀ a b : ℚ, b < a →
      validate_range (some [a, b]) = .error .valueErrorInvalidRange) ∧
    (∀ l : List ℚ, l.length ≠ 2 →
      validate_range (some l) = .error .valueErrorInvalidRange) := by
  refine ⟨rfl, rfl, fun a b hab => ?_, fun a b hba => ?_, fun l hl => ?_⟩
  · have hv : validate_range (some [a, b]) = .ok true := by
      simp [validate_range, hab]
    refine ⟨hv, ?_, ?_, ?_⟩
    · simp [rangeClause, hv, bind, Except.bind, pure, Except.pure]
    · exact ⟨"\n\tAND mz BETWEEN ".data, (" AND " ++ qstr b).data,
        by simp [String.data_append, List.append_assoc]⟩
    · exact ⟨("\n\tAND mz BETWEEN " ++ qstr a ++ " AND ").data, [],
        by simp [String.data_append, List.append_assoc]⟩
  · simp [validate_range, not_le.mpr hba]
  · match l, hl with
    | [], _ => rfl
    | [x], _ => rfl
    | x :: y :: z :: rest, _ => rfl
    | [x, y], h => exact absurd rfl h

/-- Witness for C5 at the spec's example ranges `[2, 5]` and `[5, 2]` and
a wrong-arity range `[1]`. -/
theorem C5_witness :
    validate_range (some [(2 : ℚ), 5]) = .ok true ∧
    rangeClause "mz" (some [(2 : ℚ), 5]) =
      .ok ("\n\tAND mz BETWEEN " ++ qstr 2 ++ " AND " ++ qstr 5) ∧
    validate_range (some [(5 : ℚ), 2]) = .error .valueErrorInvalidRange ∧
    validate_range (some [(1 : ℚ)]) = .error .valueErrorInvalidRange :=
  ⟨(C5_range_validation.2.2.1 2 5 (by decide)).1,
   (C5_range_validation.2.2.1 2 5 (by decide)).2.1,
   C5_range_validation.2.2.2.1 5 2 (by decide),
   C5_range_validation.2.2.2.2 [1] (by decide)⟩

/-- **C6**: for a non-empty engine spectrum, `mw_range` returns the pair
`(m·(1 − tol·1e-6), m·(1 + tol·1e-6))` rounded to 6 decimal places, where
`m` is the fine table's first — and least — `theoretical_mz`; and for
`tol = 20` (on the physical domain `1 ≤ m`) the window is proper:
`low < high` with `m` inside `[low, high]`. -/
theorem C6_mw_window (s : List (ℚ × ℚ)) (c : ℤ) (tol : ℚ) (hs : s ≠ []) :
    ∃ m : ℚ,
      mw_range (some s) c tol =
        .ok (some (roundTo 6 (m * (1 - tol * (1/1000000))),
                   roundTo 6 (m * (1 + tol * (1/1000000))))) ∧
      (∃ r ∈ hrmsRows s c 6, r.1 = m) ∧
      (∀ r ∈ hrmsRows s c 6, m ≤ r.1) ∧
      (tol = 20 → 1 ≤ m →
        roundTo 6 (m * (1 - tol * (1/1000000))) <
          roundTo 6 (m * (1 + tol * (1/1000000))) ∧
        roundTo 6 (m * (1 - tol * (1/1000000))) ≤ m ∧
        m ≤ roundTo 6 (m * (1 + tol * (1/1000000)))) := by
  cases hrows : hrmsRows s c 6 with
  | nil =>
      exfalso
      apply hs
      have hlen : (hrmsRows s c 6).length = s.length := by
        simp [hrmsRows]
      rw [hrows] at hlen
      exact List.length_eq_zero.mp hlen.symm
  | cons r0 rest =>
      refine ⟨r0.1, ?_, ⟨r0, List.mem_cons_self r0 rest, rfl⟩, ?_, ?_⟩
      · have hh : hrms (some s) c 6 = some (r0 :: rest) := by
          simp [hrms, hrows]
        unfold mw_range
        rw [hh]
      · intro r hr
        rcases List.mem_cons.mp hr with h | h
        · rw [h]
        · have hp := hrmsRows_sorted s c 6
          rw [hrows] at hp
          exact (List.pairwise_cons.mp hp).1 r h
      · intro htol hm
        subst htol
        set m := r0.1 with hmdef
        have b1 := roundTo_le 6 (m * (1 - 20 * (1/1000000)))
        have b2 := roundTo_ge 6 (m * (1 - 20 * (1/1000000)))
        have b3 := roundTo_le 6 (m * (1 + 20 * (1/1000000)))
        have b4 := roundTo_ge 6 (m * (1 + 20 * (1/1000000)))
        have hc : (1 : ℚ) / (2 * 10 ^ 6) = 1/2000000 := by norm_num
        rw [hc] at b1 b2 b3 b4
        refine ⟨by nlinarith, by nlinarith, by nlinarith⟩

/-- Witness for C6 at the spectrum `[(18, 1)]`, charge `+1`,
`tolerance_ppm = 20`. -/
theorem C6_witness :
    ∃ m : ℚ,
      mw_range (some [((18 : ℚ), (1 : ℚ))]) 1 20 =
        .ok (some (roundTo 6 (m * (1 - 20 * (1/1000000))),
                   roundTo 6 (m * (1 + 20 * (1/1000000))))) ∧
      (∃ r ∈ hrmsRows [((18 : ℚ), (1 : ℚ))] 1 6, r.1 = m) ∧
      (∀ r ∈ hrmsRows [((18 : ℚ), (1 : ℚ))] 1 6, m ≤ r.1) ∧
      ((20 : ℚ) = 20 → 1 ≤ m →
        roundTo 6 (m * (1 - 20 * (1/1000000))) <
          roundTo 6 (m * (1 + 20 * (1/1000000))) ∧
        roundTo 6 (m * (1 - 20 * (1/1000000))) ≤ m ∧
        m ≤ roundTo 6 (m * (1 + 20 * (1/1000000)))) :=
  C6_mw_window [(18, 1)] 1 20 (by decide)

/-- The spectrum refuting strict sortedness: two isotopologues whose raw
masses differ by `10^-8`, which round to the same `tmz` at precision 6. -/
def c7spectrum : List (ℚ × ℚ) :=
  [(mkRat 1000000001 10000000, mkRat 1 2), (mkRat 1000000002 10000000, mkRat 1 2)]

/-- **C7 counterexample**: a successful fine-spectrum result whose rows are
NOT strictly ascending in `theoretical_mz`: rounding to the configured
precision maps two distinct raw masses to the same `tmz`, so the sorted
table contains a tie. -/
theorem C7_cex :
    hrms (some c7spectrum) 1 6 =
      some [(mkRat 99999452 1000000, 500000), (mkRat 99999452 1000000, 500000)] ∧
    ¬ (hrmsRows c7spectrum 1 6).Pairwise (fun a b : ℚ × ℤ => a.1 < b.1) := by
  constructor
  · decide
  · decide

/-- **C7 amended**: fine-table rows are sorted ascending by
`theoretical_mz` in the non-strict sense (ties possible after rounding):
the table is the monotone image of the mass-sorted spectrum. -/
theorem C7_sorted_nondecreasing (s : List (ℚ × ℚ)) (c : ℤ) (prec : ℕ) :
    (hrmsRows s c prec).Pairwise (fun a b : ℚ × ℤ => a.1 ≤ b.1) :=
  hrmsRows_sorted s c prec

/-- **C8** (code evaluated at the failing input): when a named `.sql`
template resource is missing, `fetch_template`'s `except` branch only
prints the error; `return _template` then reads the never-assigned local
and raises `UnboundLocalError` — an uncaught fault, not the recovered,
logged, explicit no-result signal the spec's `MissingTemplate` policy
promises.  Present resources and non-`.sql` custom template strings do
succeed. -/
theorem C8_missing_template_fault :
    fetch_template "duckdb/get_ms1_features.sql" none = .error .unboundLocal ∧
    fetch_template "duckdb/get_chromatograms.sql" none = .error .unboundLocal ∧
    fetch_template "duckdb/get_ms1_features.sql" (some "SELECT 1") = .ok "SELECT 1" ∧
    fetch_template "SELECT 42" none = .ok "SELECT 42" := by
  refine ⟨by decide, by decide, by decide, by decide⟩

/-- **C9**: executing with a non-empty footer runs a new query value with
the footer appended as a trailing line — a text distinct from the
receiver's — while the receiver is returned to the caller unchanged; and
the row-count variant is a fresh query wrapping the receiver's lines in
the `result` CTE, computed from the already-built query text alone. -/
theorem C9_run_footer_count (q : MisoQuery) (footer : String) (hf : footer ≠ "") :
    (q.runExec footer).1.text = q.text ++ "\n" ++ footer ∧
    (q.runExec footer).1 ≠ q ∧
    (q.runExec footer).2 = q ∧
    q.countQuery.text =
      "WITH result AS (" ++ "\n" ++ joinNl (q.lines.map (fun l => "\t" ++ l)) ++
        "\n" ++ ") SELECT COUNT(1) AS row_count FROM result" ∧
    (∀ q' : MisoQuery, q'.text = q.text → q'.countQuery = q.countQuery) := by
  have hrun : (q.runExec footer).1 = MisoQuery.mk (q.text ++ "\n" ++ footer) := by
    simp [MisoQuery.runExec, hf]
  refine ⟨by rw [hrun], ?_, rfl, ?_, ?_⟩
  · rw [hrun]
    intro he
    have htxt : q.text ++ "\n" ++ footer = q.text := congrArg MisoQuery.text he
    have hlen := congrArg String.length htxt
    rw [String.length_append, String.length_append] at hlen
    have h1 : ("\n" : String).length = 1 := rfl
    omega
  · simp [MisoQuery.countQuery, joinNl, String.append_assoc]
  · intro q' hq
    cases q
    cases q'
    simp_all

/-- Witness for C9 at `q = "SELECT 1"` with footer `"LIMIT 420"`. -/
theorem C9_witness :
    ((MisoQuery.mk "SELECT 1").runExec "LIMIT 420").1.text =
        "SELECT 1" ++ "\n" ++ "LIMIT 420" ∧
    ((MisoQuery.mk "SELECT 1").runExec "LIMIT 420").1 ≠ MisoQuery.mk "SELECT 1" ∧
    ((MisoQuery.mk "SELECT 1").runExec "LIMIT 420").2 = MisoQuery.mk "SELECT 1" ∧
    (MisoQuery.mk "SELECT 1").countQuery.text =
      "WITH result AS (" ++ "\n" ++
        joinNl ((MisoQuery.mk "SELECT 1").lines.map (fun l => "\t" ++ l)) ++
        "\n" ++ ") SELECT COUNT(1) AS row_count FROM result" ∧
    (∀ q' : MisoQuery, q'.text = (MisoQuery.mk "SELECT 1").text →
      q'.countQuery = (MisoQuery.mk "SELECT 1").countQuery) :=
  C9_run_footer_count (MisoQuery.mk "SELECT 1") "LIMIT 420" (by decide)

/-- **C10**: the `get_ms1_features` filter clauses are concatenated in the
fixed order (feature match, mass range, time range), each present only if
its parameter was supplied; with `msrun_ids = "RUN1"`,
`mz_range = (100, 200)` and no `rt_range` the generated substitution text
contains the m/z clause and no retention-time clause. -/
theorem C10_clause_order (fid : Option ℤ) (mz rt : Option (List ℚ))
    (f2 f3 : String) (h2 : rangeClause "mz" mz = .ok f2)
    (h3 : rangeClause "rt" rt = .ok f3) :
    ms1FilterClauses fid mz rt = .ok (featureClause fid ++ f2 ++ f3) ∧
    (fid = none → featureClause fid = "") ∧
    (mz = none → f2 = "") ∧
    (rt = none → f3 = "") ∧
    get_ms1_features (.str "RUN1") none (some [100, 200]) none =
      .ok (.pystr "('RUN1')", "\n\tAND mz BETWEEN 100 AND 200") ∧
    "AND mz BETWEEN".data <:+: "\n\tAND mz BETWEEN 100 AND 200".data ∧
    ¬ ("AND rt".data <:+: "\n\tAND mz BETWEEN 100 AND 200".data) := by
  refine ⟨?_, ?_, ?_, ?_, by decide, by decide, by decide⟩
  · simp [ms1FilterClauses, h2, h3, bind, Except.bind, pure, Except.pure]
  · intro h
    subst h
    rfl
  · intro h
    subst h
    have : Except.ok (ε := SqlError) "" = Except.ok f2 := h2
    exact (Except.ok.inj this).symm
  · intro h
    subst h
    have : Except.ok (ε := SqlError) "" = Except.ok f3 := h3
    exact (Except.ok.inj this).symm

/-- Witness for C10: `feature_id = 7`, `mz_range = [100, 200]`, no
`rt_range`. -/
theorem C10_witness :
    ms1FilterClauses (some 7) (some [(100 : ℚ), 200]) none =
      .ok (featureClause (some 7) ++ "\n\tAND mz BETWEEN 100 AND 200" ++ "") ∧
    ((some 7 : Option ℤ) = none → featureClause (some 7) = "") ∧
    ((some [(100 : ℚ), 200] : Option (List ℚ)) = none →
      "\n\tAND mz BETWEEN 100 AND 200" = "") ∧
    ((none : Option (List ℚ)) = none → "" = "") ∧
    get_ms1_features (.str "RUN1") none (some [100, 200]) none =
      .ok (.pystr "('RUN1')", "\n\tAND mz BETWEEN 100 AND 200") ∧
    "AND mz BETWEEN".data <:+: "\n\tAND mz BETWEEN 100 AND 200".data ∧
    ¬ ("AND rt".data <:+: "\n\tAND mz BETWEEN 100 AND 200".data) :=
  C10_clause_order (some 7) (some [100, 200]) none
    "\n\tAND mz BETWEEN 100 AND 200" "" (by decide) (by decide)

end Miso
